import Mathlib

/-!
Verification of the SimScale harmonic-response tutorial script
(`harmonic_response_tutorial.py`).

The script is a linear orchestration of remote API calls.  We embed it as a
deterministic function from an environment (the API-key setting plus the
responses the remote service would return) to the ordered trace of observable
events (stdout prints, sleeps, API calls, process exit) together with an
outcome.  The three poll loops are embedded as recursive functions over the
finite list of status responses the service produces; a loop that exhausts its
responses without seeing a terminal status leaves the script `stuck`
(corresponding to the real loop still polling).
-/

set_option maxRecDepth 4000

/-- Terminal-status test used by all three poll loops:
`status in ("FINISHED", "FAILED")`. -/
def isTerminal (s : String) : Bool :=
  s == ("FINISHED") || s == ("FAILED")

/-! ### The simulation-spec payload (lines 76–165 of the script) -/

/-- `ConstantFunction(type=..., value=...)`. -/
structure ConstantFunction where
  type : String
  value : ℚ
deriving DecidableEq

/-- `DimensionalFunctionPressure(value=..., unit=...)`. -/
structure DimensionalFunctionPressure where
  value : ConstantFunction
  unit : String
deriving DecidableEq

/-- `IsotropicDirectionalDependency(...)`. -/
structure IsotropicDirectionalDependency where
  type : String
  youngs_modulus : DimensionalFunctionPressure
  poissons_ratio : ConstantFunction
deriving DecidableEq

/-- `LinearElasticMaterialBehavior(...)`. -/
structure LinearElasticMaterialBehavior where
  type : String
  directional_dependency : IsotropicDirectionalDependency
deriving DecidableEq

/-- `DimensionalFunctionDensity(value=..., unit=...)`. -/
structure DimensionalFunctionDensity where
  value : ConstantFunction
  unit : String
deriving DecidableEq

/-- `TopologicalReference(entities=[...])`. -/
structure TopologicalReference where
  entities : List String
deriving DecidableEq

/-- `SolidMaterial(...)`. -/
structure SolidMaterial where
  name : String
  material_behavior : LinearElasticMaterialBehavior
  density : DimensionalFunctionDensity
  topological_reference : TopologicalReference
deriving DecidableEq

/-- `ComponentVectorFunction(type=..., x=..., y=..., z=...)`. -/
structure ComponentVectorFunction where
  type : String
  x : ConstantFunction
  y : ConstantFunction
  z : ConstantFunction
deriving DecidableEq

/-- `DimensionalVectorFunctionForce(value=..., unit=...)`. -/
structure DimensionalVectorFunctionForce where
  value : ComponentVectorFunction
  unit : String
deriving DecidableEq

/-- The two boundary-condition constructors the script uses:
`FixedSupportBC(...)` and `ForceLoadBC(...)`. -/
inductive BoundaryCondition where
  | fixedSupportBC (type : String) (name : String)
      (topological_reference : TopologicalReference)
  | forceLoadBC (type : String) (name : String)
      (force : DimensionalVectorFunctionForce)
      (topological_reference : TopologicalReference)
deriving DecidableEq

/-- `MUMPSSolver(type=...)`. -/
structure MUMPSSolver where
  type : String
deriving DecidableEq

/-- `CalculateFrequency(...)`. -/
structure CalculateFrequency where
  prec_shift : ℚ
  max_iter_shift : ℕ
  threshold_frequency : ℚ
deriving DecidableEq

/-- `EigenModeVerification(...)`. -/
structure EigenModeVerification where
  threshold : ℚ
  precision_shift : ℚ
deriving DecidableEq

/-- `ModalSolver(...)`; fields the script leaves unset are `none`
(the SDK default), and `solver_model={}` is `some []`. -/
structure ModalSolver where
  solver : MUMPSSolver
  solver_model : Option (List (String × String)) := none
  calculate_frequency : Option CalculateFrequency := none
  eigen_mode : Option EigenModeVerification := none
deriving DecidableEq

/-- `SolidNumerics(...)`. -/
structure SolidNumerics where
  harmonic_solution_method : String
  modal_base : ModalSolver
  harmonic_response : ModalSolver
deriving DecidableEq

/-- `FirstMode(type=..., number_of_modes=...)`. -/
structure FirstMode where
  type : String
  number_of_modes : ℕ
deriving DecidableEq

/-- `ModalBaseControl(eigenfrequency_scope=...)`. -/
structure ModalBaseControl where
  eigenfrequency_scope : FirstMode
deriving DecidableEq

/-- `DimensionalFrequency(value=..., unit=...)`. -/
structure DimensionalFrequency where
  value : ℚ
  unit : String
deriving DecidableEq

/-- `FrequencyList(...)`. -/
structure FrequencyList where
  type : String
  start_frequency : DimensionalFrequency
  end_frequency : DimensionalFrequency
deriving DecidableEq

/-- `HarmonicResponseControl(excitation_frequencies=...)`. -/
structure HarmonicResponseControl where
  excitation_frequencies : FrequencyList
deriving DecidableEq

/-- `ComputingCore(num_of_processors=...)`. -/
structure ComputingCore where
  num_of_processors : ℤ
deriving DecidableEq

/-- `DimensionalTime(value=..., unit=...)`. -/
structure DimensionalTime where
  value : ℚ
  unit : String
deriving DecidableEq

/-- `SolidSimulationControl(...)`. -/
structure SolidSimulationControl where
  modal_base : ModalBaseControl
  harmonic_response : HarmonicResponseControl
  processors : ComputingCore
  max_run_time : DimensionalTime
deriving DecidableEq

/-- `AutomaticElementDefinitionMethod(type=...)`. -/
structure AutomaticElementDefinitionMethod where
  type : String
deriving DecidableEq

/-- `ElementTechnology(definition_method=...)`. -/
structure ElementTechnology where
  definition_method : AutomaticElementDefinitionMethod
deriving DecidableEq

/-- `SolidElementTechnology(element_technology3_d=...)`. -/
structure SolidElementTechnology where
  element_technology3_d : ElementTechnology
deriving DecidableEq

/-- `SolidGlobalPhysics(enable_global_damping=...)`. -/
structure SolidGlobalPhysics where
  enable_global_damping : Bool
deriving DecidableEq

/-- `SolidModel()` — constructed with no arguments by the script. -/
inductive SolidModel where
  | mk
deriving DecidableEq

/-- `SolidInitialConditions()` — constructed with no arguments. -/
inductive SolidInitialConditions where
  | mk
deriving DecidableEq

/-- `SolidResultControl()` — constructed with no arguments. -/
inductive SolidResultControl where
  | mk
deriving DecidableEq

/-- `HarmonicAnalysis(...)` — the simulation model. -/
structure HarmonicAnalysis where
  element_technology : SolidElementTechnology
  global_physics : SolidGlobalPhysics
  model : SolidModel
  materials : List SolidMaterial
  initial_conditions : SolidInitialConditions
  boundary_conditions : List BoundaryCondition
  numerics : SolidNumerics
  simulation_control : SolidSimulationControl
  result_control : SolidResultControl
deriving DecidableEq

/-- `SimulationSpec(...)`; `mesh_id` is unset (`none`) at creation and is the
field assigned by `sim.mesh_id = mesh_op.mesh_id` before the update call. -/
structure SimulationSpec where
  name : String
  geometry_id : String
  mesh_id : Option String := none
  model : HarmonicAnalysis
deriving DecidableEq

/-- The `HarmonicAnalysis(...)` literal the script builds (lines 81–163),
parameterized by the body name substituted into the material's
topological reference. -/
def harmonicModel (body_name : String) : HarmonicAnalysis :=
  { element_technology :=
      { element_technology3_d :=
          { definition_method := { type := ("AUTOMATIC") } } }
    global_physics := { enable_global_damping := false }
    model := SolidModel.mk
    materials :=
      [{ name := ("Steel")
         material_behavior :=
           { type := ("LINEAR_ELASTIC")
             directional_dependency :=
               { type := ("ISOTROPIC")
                 youngs_modulus :=
                   { value := { type := ("CONSTANT"), value := 200000000000 }
                     unit := ("Pa") }
                 poissons_ratio := { type := ("CONSTANT"), value := 3 / 10 } } }
         density :=
           { value := { type := ("CONSTANT"), value := 7850 }
             unit := ("kg/m³") }
         topological_reference := { entities := [body_name] } }]
    initial_conditions := SolidInitialConditions.mk
    boundary_conditions :=
      [BoundaryCondition.fixedSupportBC ("FIXED_SUPPORT") ("Fixed Support")
         { entities := [("B1_TE42"), ("B1_TE70"), ("B1_TE98"), ("B1_TE378")] },
       BoundaryCondition.forceLoadBC ("FORCE_LOAD") ("Force")
         { value :=
             { type := ("COMPONENT")
               x := { type := ("CONSTANT"), value := 0 }
               y := { type := ("CONSTANT"), value := 0 }
               z := { type := ("CONSTANT"), value := -1000 } }
           unit := ("N") }
         { entities := [("B1_TE150"), ("B1_TE153")] }]
    numerics :=
      { harmonic_solution_method := ("MODAL_BASED")
        modal_base :=
          { solver := { type := ("MUMPS") }
            solver_model := some []
            calculate_frequency :=
              some { prec_shift := 5 / 100, max_iter_shift := 3
                     threshold_frequency := 1 / 100 }
            eigen_mode :=
              some { threshold := 1 / 1000000, precision_shift := 5 / 100 } }
        harmonic_response := { solver := { type := ("MUMPS") } } }
    simulation_control :=
      { modal_base :=
          { eigenfrequency_scope :=
              { type := ("FIRSTMODE"), number_of_modes := 10 } }
        harmonic_response :=
          { excitation_frequencies :=
              { type := ("LIST_V20")
                start_frequency := { value := 10, unit := ("Hz") }
                end_frequency := { value := 1000, unit := ("Hz") } } }
        processors := { num_of_processors := -1 }
        max_run_time := { value := 18000, unit := ("s") } }
    result_control := SolidResultControl.mk }

/-- The `SimulationSpec(...)` sent to `create_simulation` (lines 76–165). -/
def builtSpec (geometry_id : String) (body_name : String) : SimulationSpec :=
  { name := ("Harmonic Response")
    geometry_id := geometry_id
    mesh_id := none
    model := harmonicModel body_name }

/-! ### Remote-resource responses (the oracle's view of the service) -/

/-- A geometry-import object, as returned by `import_geometry` and by each
`get_geometry_import` poll. -/
structure GeometryImport where
  geometry_import_id : String
  status : String
  geometry_id : String
deriving DecidableEq

/-- A body returned in `.embedded` by `get_geometry_mappings`. -/
structure MappedBody where
  name : String
deriving DecidableEq

/-- A mesh-operation object, as returned by `create_mesh_operation` and by
each `get_mesh_operation` poll. -/
structure MeshOp where
  mesh_operation_id : String
  status : String
  mesh_id : Option String := none
deriving DecidableEq

/-- A simulation-run object, as returned by `create_simulation_run` and by
each `get_simulation_run` poll; `progress` is the 0–1 fraction. -/
structure SimRun where
  run_id : String
  status : String
  progress : ℚ
deriving DecidableEq

/-- The environment the script runs against: the API-key variable and the
sequence of responses the remote service returns to each call. -/
structure Env where
  apiKey : Option String
  project_id : String
  simulation_id : String
  importCreated : GeometryImport
  importResponses : List GeometryImport
  mappings : List MappedBody
  meshOpCreated : MeshOp
  meshResponses : List MeshOp
  fetchedSim : SimulationSpec
  runCreated : SimRun
  runResponses : List SimRun

/-! ### Observable events -/

/-- The network calls the script issues, with the payloads relevant to the
claims. -/
inductive ApiCall where
  | createProject
  | createStorage
  | putStorage
  | importGeometry
  | getGeometryImport (geometry_import_id : String)
  | getGeometryMappings (geometry_id : String)
  | createSimulation (spec : SimulationSpec)
  | createMeshOperation (geometry_id : String)
  | startMeshOperation (mesh_operation_id : String) (simulation_id : String)
  | getMeshOperation (mesh_operation_id : String)
  | getSimulation (simulation_id : String)
  | updateSimulation (simulation_id : String) (spec : SimulationSpec)
  | createSimulationRun (simulation_id : String)
  | startSimulationRun (run_id : String)
  | getSimulationRun (run_id : String)
deriving DecidableEq

/-- One observable step of the script. -/
inductive Event where
  | print (s : String)
  | sleep (seconds : ℕ)
  | mkClient
  | call (c : ApiCall)
  | exitProc (code : ℕ)
deriving DecidableEq

/-- How the modelled execution ends: `exited` via `sys.exit`, `stuck` when a
poll loop's response list ran out with no terminal status (the real loop would
still be polling), `completed` when the final prints were reached. -/
inductive Outcome where
  | exited (code : ℕ)
  | stuck
  | completed
deriving DecidableEq

/-! ### Percentage rendering (`f"{run.progress:.0%}"`) -/

/-- Floor of a rational, computed from numerator and denominator. -/
def ratFloor (q : ℚ) : ℤ :=
  Int.fdiv q.num q.den

/-- Round-half-even on rationals, matching how Python's `format(x, ".0%")`
rounds the (exact) value of the float to an integer number of percent. -/
def roundHalfEven (q : ℚ) : ℤ :=
  let f := ratFloor q
  let fr := q - (f : ℚ)
  if fr < 1 / 2 then f
  else if 1 / 2 < fr then f + 1
  else if f % 2 = 0 then f else f + 1

/-- Rendering of `f"{p:.0%}"`: the fraction times 100, rounded, with a
percent sign. -/
def pctFormat (p : ℚ) : String :=
  toString (roundHalfEven (100 * p)) ++ ("%")

/-- The run-status line printed each iteration of the run poll loop:
`f"Status: {run.status} - Progress: {run.progress:.0%}"`. -/
def statusLine (r : SimRun) : String :=
  ("Status: ") ++ r.status ++ (" - Progress: ") ++ pctFormat r.progress

/-! ### The three poll loops -/

/-- Lines 60–64: `while geometry_import.status not in ("FINISHED","FAILED"):
time.sleep(5); geometry_import = get_geometry_import(...)`.  The condition is
tested on the current object *before* any fetch; each fetch uses the current
object's `geometry_import_id`. -/
def importPollLoop (gi : GeometryImport) (rs : List GeometryImport) :
    List Event × Option GeometryImport :=
  if isTerminal gi.status then ([], some gi)
  else
    match rs with
    | [] => ([], none)
    | r :: rest =>
      let p := importPollLoop r rest
      (Event.sleep 5 ::
         Event.call (ApiCall.getGeometryImport gi.geometry_import_id) :: p.1,
       p.2)

/-- Lines 189–193: `while True: mesh_op = get_mesh_operation(...);
if mesh_op.status in ("FINISHED","FAILED"): break; time.sleep(30)`.  The fetch
happens before the test; each fetch uses the current object's
`mesh_operation_id`. -/
def meshPollLoop (moId : String) (rs : List MeshOp) :
    List Event × Option MeshOp :=
  match rs with
  | [] => ([], none)
  | r :: rest =>
    if isTerminal r.status then
      ([Event.call (ApiCall.getMeshOperation moId)], some r)
    else
      let p := meshPollLoop r.mesh_operation_id rest
      (Event.call (ApiCall.getMeshOperation moId) :: Event.sleep 30 :: p.1,
       p.2)

/-- Lines 208–213: `while True: run = get_simulation_run(...); print(status
line); if run.status in ("FINISHED","FAILED"): break; time.sleep(60)`.  The
fetch and the print happen before the test; each fetch uses the current
object's `run_id`. -/
def runPollLoop (runId : String) (rs : List SimRun) :
    List Event × Option SimRun :=
  match rs with
  | [] => ([], none)
  | r :: rest =>
    if isTerminal r.status then
      ([Event.call (ApiCall.getSimulationRun runId),
        Event.print (statusLine r)], some r)
    else
      let p := runPollLoop r.run_id rest
      (Event.call (ApiCall.getSimulationRun runId) ::
         Event.print (statusLine r) :: Event.sleep 60 :: p.1,
       p.2)

/-! ### The script, stage by stage -/

/-- Line 11: Python's `not api_key` — true when the variable is absent or the
empty string. -/
def keyMissing (env : Env) : Bool :=
  match env.apiKey with
  | none => true
  | some s => s == ("")

/-- The message printed when the key is missing (line 12). -/
def errMsg : String :=
  "ERROR: Please set SIMSCALE_API_KEY environment variable"

/-- Line 72: `bodies[0].name if bodies else "region1"`. -/
def bodyName (env : Env) : String :=
  match env.mappings with
  | [] => ("region1")
  | b :: _ => b.name

/-- Events from client construction (line 16) through the
"Importing geometry..." print (line 59), all before the import poll loop. -/
def setupEvents : List Event :=
  [Event.mkClient,
   Event.print ("Creating project..."),
   Event.call ApiCall.createProject,
   Event.print ("Uploading geometry..."),
   Event.call ApiCall.createStorage,
   Event.call ApiCall.putStorage,
   Event.call ApiCall.importGeometry,
   Event.print ("Importing geometry...")]

/-- The import poll loop applied to the submission response and the service's
subsequent poll responses. -/
def importStage (env : Env) : List Event × Option GeometryImport :=
  importPollLoop env.importCreated env.importResponses

/-- Events from the geometry-mappings query (line 69) through the
"Meshing..." print (line 188), given the geometry id read off the finished
import. -/
def afterImportEvents (env : Env) (geometry_id : String) : List Event :=
  [Event.call (ApiCall.getGeometryMappings geometry_id),
   Event.print ("Setting up simulation..."),
   Event.call (ApiCall.createSimulation (builtSpec geometry_id (bodyName env))),
   Event.print ("Creating mesh..."),
   Event.call (ApiCall.createMeshOperation geometry_id),
   Event.call (ApiCall.startMeshOperation env.meshOpCreated.mesh_operation_id
                 env.simulation_id),
   Event.print ("Meshing...")]

/-- The mesh poll loop, entered with the created mesh operation's id. -/
def meshStage (env : Env) : List Event × Option MeshOp :=
  meshPollLoop env.meshOpCreated.mesh_operation_id env.meshResponses

/-- Lines 196–198: the fetched simulation with only `mesh_id` reassigned to
the finished mesh operation's `mesh_id`. -/
def updatePayload (env : Env) (mo : MeshOp) : SimulationSpec :=
  { env.fetchedSim with mesh_id := mo.mesh_id }

/-- Events from `get_simulation` (line 196) through `start_simulation_run`
(line 205), given the finished mesh operation. -/
def afterMeshEvents (env : Env) (mo : MeshOp) : List Event :=
  [Event.call (ApiCall.getSimulation env.simulation_id),
   Event.call (ApiCall.updateSimulation env.simulation_id
                 (updatePayload env mo)),
   Event.print ("Running simulation..."),
   Event.call (ApiCall.createSimulationRun env.simulation_id),
   Event.call (ApiCall.startSimulationRun env.runCreated.run_id)]

/-- The run poll loop, entered with the created run's id. -/
def runStage (env : Env) : List Event × Option SimRun :=
  runPollLoop env.runCreated.run_id env.runResponses

/-- The final completion print (line 215). -/
def doneMsg : String := "\n✓ Simulation complete!"

/-- The final results-URL print (line 216). -/
def resultsUrl (env : Env) : String :=
  ("View results at: https://www.simscale.com/workbench/project/")
    ++ env.project_id

/-- The two prints after the run loop exits. -/
def finalEvents (env : Env) : List Event :=
  [Event.print doneMsg, Event.print (resultsUrl env)]

/-- The whole script: the event trace it produces against `env`, and how it
ends. -/
def runScript (env : Env) : List Event × Outcome :=
  if keyMissing env then
    ([Event.print errMsg, Event.exitProc 1], Outcome.exited 1)
  else
    match (importStage env).2 with
    | none => (setupEvents ++ (importStage env).1, Outcome.stuck)
    | some gi =>
      match (meshStage env).2 with
      | none =>
        (setupEvents ++ (importStage env).1
           ++ afterImportEvents env gi.geometry_id ++ (meshStage env).1,
         Outcome.stuck)
      | some mo =>
        match (runStage env).2 with
        | none =>
          (setupEvents ++ (importStage env).1
             ++ afterImportEvents env gi.geometry_id ++ (meshStage env).1
             ++ afterMeshEvents env mo ++ (runStage env).1,
           Outcome.stuck)
        | some _ =>
          (setupEvents ++ (importStage env).1
             ++ afterImportEvents env gi.geometry_id ++ (meshStage env).1
             ++ afterMeshEvents env mo ++ (runStage env).1
             ++ finalEvents env,
           Outcome.completed)

/-! ### Event-classifying predicates -/

/-- Is this event a `get_geometry_import` status request? -/
def isImportGet : Event → Bool
  | Event.call (ApiCall.getGeometryImport _) => true
  | _ => false

/-- Is this event a `get_mesh_operation` status request? -/
def isMeshGet : Event → Bool
  | Event.call (ApiCall.getMeshOperation _) => true
  | _ => false

/-- Is this event a `get_simulation_run` status request? -/
def isRunGet : Event → Bool
  | Event.call (ApiCall.getSimulationRun _) => true
  | _ => false

/-- Is this event a stdout print? -/
def isPrintEv : Event → Bool
  | Event.print _ => true
  | _ => false

/-! ### Poll-loop lemmas -/

lemma importPollLoop_terminal (gi : GeometryImport) (rs : List GeometryImport)
    (h : isTerminal gi.status = true) :
    importPollLoop gi rs = ([], some gi) := by
  cases rs <;> simp [importPollLoop, h]

lemma importPollLoop_sound :
    ∀ (rs : List GeometryImport) (gi r : GeometryImport),
      (importPollLoop gi rs).2 = some r → isTerminal r.status = true := by
  intro rs
  induction rs with
  | nil =>
    intro gi r h
    by_cases hgi : isTerminal gi.status = true
    · simp [importPollLoop, hgi] at h
      exact h ▸ hgi
    · simp [importPollLoop, hgi] at h
  | cons a rest ih =>
    intro gi r h
    by_cases hgi : isTerminal gi.status = true
    · simp [importPollLoop, hgi] at h
      exact h ▸ hgi
    · simp only [importPollLoop, hgi, Bool.false_eq_true, if_false] at h
      exact ih a r h

lemma meshPollLoop_sound :
    ∀ (rs : List MeshOp) (moId : String) (r : MeshOp),
      (meshPollLoop moId rs).2 = some r → isTerminal r.status = true := by
  intro rs
  induction rs with
  | nil => intro moId r h; simp [meshPollLoop] at h
  | cons a rest ih =>
    intro moId r h
    by_cases ha : isTerminal a.status = true
    · simp [meshPollLoop, ha] at h
      exact h ▸ ha
    · simp only [meshPollLoop, ha, Bool.false_eq_true, if_false] at h
      exact ih a.mesh_operation_id r h

lemma runPollLoop_sound :
    ∀ (rs : List SimRun) (runId : String) (r : SimRun),
      (runPollLoop runId rs).2 = some r → isTerminal r.status = true := by
  intro rs
  induction rs with
  | nil => intro runId r h; simp [runPollLoop] at h
  | cons a rest ih =>
    intro runId r h
    by_cases ha : isTerminal a.status = true
    · simp [runPollLoop, ha] at h
      exact h ▸ ha
    · simp only [runPollLoop, ha, Bool.false_eq_true, if_false] at h
      exact ih a.run_id r h

lemma importPollLoop_nil (gi : GeometryImport)
    (hgi : isTerminal gi.status = false) :
    importPollLoop gi [] = ([], none) := by
  simp [importPollLoop, hgi]

lemma importPollLoop_cons (gi : GeometryImport)
    (hgi : isTerminal gi.status = false) (a : GeometryImport)
    (rest : List GeometryImport) :
    importPollLoop gi (a :: rest) =
      (Event.sleep 5 ::
         Event.call (ApiCall.getGeometryImport gi.geometry_import_id) ::
         (importPollLoop a rest).1,
       (importPollLoop a rest).2) := by
  simp [importPollLoop, hgi]

lemma meshPollLoop_nil (moId : String) : meshPollLoop moId [] = ([], none) := by
  simp [meshPollLoop]

lemma meshPollLoop_cons_term (moId : String) (a : MeshOp) (rest : List MeshOp)
    (ha : isTerminal a.status = true) :
    meshPollLoop moId (a :: rest) =
      ([Event.call (ApiCall.getMeshOperation moId)], some a) := by
  simp [meshPollLoop, ha]

lemma meshPollLoop_cons (moId : String) (a : MeshOp) (rest : List MeshOp)
    (ha : isTerminal a.status = false) :
    meshPollLoop moId (a :: rest) =
      (Event.call (ApiCall.getMeshOperation moId) :: Event.sleep 30 ::
         (meshPollLoop a.mesh_operation_id rest).1,
       (meshPollLoop a.mesh_operation_id rest).2) := by
  simp [meshPollLoop, ha]

lemma runPollLoop_nil (runId : String) : runPollLoop runId [] = ([], none) := by
  simp [runPollLoop]

lemma runPollLoop_cons_term (runId : String) (a : SimRun) (rest : List SimRun)
    (ha : isTerminal a.status = true) :
    runPollLoop runId (a :: rest) =
      ([Event.call (ApiCall.getSimulationRun runId),
        Event.print (statusLine a)], some a) := by
  simp [runPollLoop, ha]

lemma runPollLoop_cons (runId : String) (a : SimRun) (rest : List SimRun)
    (ha : isTerminal a.status = false) :
    runPollLoop runId (a :: rest) =
      (Event.call (ApiCall.getSimulationRun runId) ::
         Event.print (statusLine a) :: Event.sleep 60 ::
         (runPollLoop a.run_id rest).1,
       (runPollLoop a.run_id rest).2) := by
  simp [runPollLoop, ha]

lemma importPollLoop_firstTerminal :
    ∀ (as : List GeometryImport) (gi r : GeometryImport)
      (bs : List GeometryImport),
      isTerminal gi.status = false →
      (∀ a ∈ as, isTerminal a.status = false) →
      isTerminal r.status = true →
      importPollLoop gi (as ++ r :: bs) = importPollLoop gi (as ++ [r]) ∧
      (importPollLoop gi (as ++ r :: bs)).2 = some r ∧
      ((importPollLoop gi (as ++ r :: bs)).1.countP isImportGet)
        = as.length + 1 := by
  intro as
  induction as with
  | nil =>
    intro gi r bs hgi _ hr
    rw [List.nil_append, List.nil_append, importPollLoop_cons gi hgi r bs,
        importPollLoop_cons gi hgi r [], importPollLoop_terminal r bs hr,
        importPollLoop_terminal r [] hr]
    refine ⟨rfl, rfl, ?_⟩
    simp [isImportGet, List.countP_cons]
  | cons a rest ih =>
    intro gi r bs hgi has hr
    have ha : isTerminal a.status = false := has a (List.mem_cons_self a rest)
    have has' : ∀ x ∈ rest, isTerminal x.status = false :=
      fun x hx => has x (List.mem_cons_of_mem a hx)
    obtain ⟨h1, h2, h3⟩ := ih a r bs ha has' hr
    rw [List.cons_append, List.cons_append, importPollLoop_cons gi hgi a _,
        importPollLoop_cons gi hgi a _, h1]
    refine ⟨rfl, by rw [← h1]; exact h2, ?_⟩
    rw [← h1]
    simp [isImportGet, List.countP_cons, h3]

lemma meshPollLoop_firstTerminal :
    ∀ (as : List MeshOp) (moId : String) (r : MeshOp) (bs : List MeshOp),
      (∀ a ∈ as, isTerminal a.status = false) →
      isTerminal r.status = true →
      meshPollLoop moId (as ++ r :: bs) = meshPollLoop moId (as ++ [r]) ∧
      (meshPollLoop moId (as ++ r :: bs)).2 = some r ∧
      ((meshPollLoop moId (as ++ r :: bs)).1.countP isMeshGet)
        = as.length + 1 := by
  intro as
  induction as with
  | nil =>
    intro moId r bs _ hr
    rw [List.nil_append, List.nil_append, meshPollLoop_cons_term moId r bs hr,
        meshPollLoop_cons_term moId r [] hr]
    refine ⟨rfl, rfl, ?_⟩
    simp [isMeshGet, List.countP_cons]
  | cons a rest ih =>
    intro moId r bs has hr
    have ha : isTerminal a.status = false := has a (List.mem_cons_self a rest)
    have has' : ∀ x ∈ rest, isTerminal x.status = false :=
      fun x hx => has x (List.mem_cons_of_mem a hx)
    obtain ⟨h1, h2, h3⟩ := ih a.mesh_operation_id r bs has' hr
    rw [List.cons_append, List.cons_append, meshPollLoop_cons moId a _ ha,
        meshPollLoop_cons moId a _ ha, h1]
    refine ⟨rfl, by rw [← h1]; exact h2, ?_⟩
    rw [← h1]
    simp [isMeshGet, List.countP_cons, h3]

lemma runPollLoop_firstTerminal :
    ∀ (as : List SimRun) (runId : String) (r : SimRun) (bs : List SimRun),
      (∀ a ∈ as, isTerminal a.status = false) →
      isTerminal r.status = true →
      runPollLoop runId (as ++ r :: bs) = runPollLoop runId (as ++ [r]) ∧
      (runPollLoop runId (as ++ r :: bs)).2 = some r ∧
      ((runPollLoop runId (as ++ r :: bs)).1.countP isRunGet)
        = as.length + 1 := by
  intro as
  induction as with
  | nil =>
    intro runId r bs _ hr
    rw [List.nil_append, List.nil_append, runPollLoop_cons_term runId r bs hr,
        runPollLoop_cons_term runId r [] hr]
    refine ⟨rfl, rfl, ?_⟩
    simp [isRunGet, isPrintEv, List.countP_cons]
  | cons a rest ih =>
    intro runId r bs has hr
    have ha : isTerminal a.status = false := has a (List.mem_cons_self a rest)
    have has' : ∀ x ∈ rest, isTerminal x.status = false :=
      fun x hx => has x (List.mem_cons_of_mem a hx)
    obtain ⟨h1, h2, h3⟩ := ih a.run_id r bs has' hr
    rw [List.cons_append, List.cons_append, runPollLoop_cons runId a _ ha,
        runPollLoop_cons runId a _ ha, h1]
    refine ⟨rfl, by rw [← h1]; exact h2, ?_⟩
    rw [← h1]
    simp [isRunGet, isPrintEv, List.countP_cons, h3]

lemma importPollLoop_events :
    ∀ (rs : List GeometryImport) (gi : GeometryImport) (e : Event),
      e ∈ (importPollLoop gi rs).1 →
      e = Event.sleep 5 ∨ ∃ i, e = Event.call (ApiCall.getGeometryImport i) := by
  intro rs
  induction rs with
  | nil =>
    intro gi e he
    by_cases hgi : isTerminal gi.status = true
    · rw [importPollLoop_terminal gi [] hgi] at he
      simp at he
    · rw [importPollLoop_nil gi (by simpa using hgi)] at he
      simp at he
  | cons a rest ih =>
    intro gi e he
    by_cases hgi : isTerminal gi.status = true
    · rw [importPollLoop_terminal gi _ hgi] at he
      simp at he
    · rw [importPollLoop_cons gi (by simpa using hgi) a rest] at he
      simp only [List.mem_cons] at he
      rcases he with h | h | h
      · exact Or.inl h
      · exact Or.inr ⟨gi.geometry_import_id, h⟩
      · exact ih a e h

lemma meshPollLoop_events :
    ∀ (rs : List MeshOp) (moId : String) (e : Event),
      e ∈ (meshPollLoop moId rs).1 →
      e = Event.sleep 30 ∨ ∃ i, e = Event.call (ApiCall.getMeshOperation i) := by
  intro rs
  induction rs with
  | nil =>
    intro moId e he
    rw [meshPollLoop_nil] at he
    simp at he
  | cons a rest ih =>
    intro moId e he
    by_cases ha : isTerminal a.status = true
    · rw [meshPollLoop_cons_term moId a rest ha] at he
      simp only [List.mem_singleton] at he
      exact Or.inr ⟨moId, he⟩
    · rw [meshPollLoop_cons moId a rest (by simpa using ha)] at he
      simp only [List.mem_cons] at he
      rcases he with h | h | h
      · exact Or.inr ⟨moId, h⟩
      · exact Or.inl h
      · exact ih a.mesh_operation_id e h

lemma runPollLoop_events :
    ∀ (rs : List SimRun) (runId : String) (e : Event),
      e ∈ (runPollLoop runId rs).1 →
      e = Event.sleep 60 ∨ (∃ i, e = Event.call (ApiCall.getSimulationRun i)) ∨
        ∃ r ∈ rs, e = Event.print (statusLine r) := by
  intro rs
  induction rs with
  | nil =>
    intro runId e he
    rw [runPollLoop_nil] at he
    simp at he
  | cons a rest ih =>
    intro runId e he
    by_cases ha : isTerminal a.status = true
    · rw [runPollLoop_cons_term runId a rest ha] at he
      simp only [List.mem_cons, List.mem_singleton] at he
      rcases he with h | h
      · exact Or.inr (Or.inl ⟨runId, h⟩)
      · simp at h
        exact Or.inr (Or.inr ⟨a, List.mem_cons_self a rest, by rw [h]⟩)
    · rw [runPollLoop_cons runId a rest (by simpa using ha)] at he
      simp only [List.mem_cons] at he
      rcases he with h | h | h | h
      · exact Or.inr (Or.inl ⟨runId, h⟩)
      · exact Or.inr (Or.inr ⟨a, List.mem_cons_self a rest, h⟩)
      · exact Or.inl h
      · rcases ih a.run_id e h with h1 | h1 | ⟨r, hr, h1⟩
        · exact Or.inl h1
        · exact Or.inr (Or.inl h1)
        · exact Or.inr (Or.inr ⟨r, List.mem_cons_of_mem a hr, h1⟩)

lemma importPollLoop_none :
    ∀ (rs : List GeometryImport) (gi : GeometryImport),
      (importPollLoop gi rs).2 = none →
      isTerminal gi.status = false ∧
        ∀ a ∈ rs, isTerminal a.status = false := by
  intro rs
  induction rs with
  | nil =>
    intro gi h
    by_cases hgi : isTerminal gi.status = true
    · rw [importPollLoop_terminal gi [] hgi] at h
      simp at h
    · exact ⟨by simpa using hgi, by simp⟩
  | cons a rest ih =>
    intro gi h
    by_cases hgi : isTerminal gi.status = true
    · rw [importPollLoop_terminal gi _ hgi] at h
      simp at h
    · rw [importPollLoop_cons gi (by simpa using hgi) a rest] at h
      obtain ⟨ha, hrest⟩ := ih a h
      refine ⟨by simpa using hgi, ?_⟩
      intro x hx
      rcases List.mem_cons.mp hx with hx | hx
      · rw [hx]; exact ha
      · exact hrest x hx

lemma meshPollLoop_none :
    ∀ (rs : List MeshOp) (moId : String),
      (meshPollLoop moId rs).2 = none →
      ∀ a ∈ rs, isTerminal a.status = false := by
  intro rs
  induction rs with
  | nil => intro moId _ a ha; simp at ha
  | cons a rest ih =>
    intro moId h
    by_cases ha : isTerminal a.status = true
    · rw [meshPollLoop_cons_term moId a rest ha] at h
      simp at h
    · rw [meshPollLoop_cons moId a rest (by simpa using ha)] at h
      intro x hx
      rcases List.mem_cons.mp hx with hx | hx
      · rw [hx]; simpa using ha
      · exact ih a.mesh_operation_id h x hx

lemma runPollLoop_none :
    ∀ (rs : List SimRun) (runId : String),
      (runPollLoop runId rs).2 = none →
      ∀ a ∈ rs, isTerminal a.status = false := by
  intro rs
  induction rs with
  | nil => intro runId _ a ha; simp at ha
  | cons a rest ih =>
    intro runId h
    by_cases ha : isTerminal a.status = true
    · rw [runPollLoop_cons_term runId a rest ha] at h
      simp at h
    · rw [runPollLoop_cons runId a rest (by simpa using ha)] at h
      intro x hx
      rcases List.mem_cons.mp hx with hx | hx
      · rw [hx]; simpa using ha
      · exact ih a.run_id h x hx

lemma runPollLoop_counts :
    ∀ (rs : List SimRun) (runId : String),
      ((runPollLoop runId rs).1.countP isPrintEv) =
        ((runPollLoop runId rs).1.countP isRunGet) := by
  intro rs
  induction rs with
  | nil => intro runId; rw [runPollLoop_nil]; rfl
  | cons a rest ih =>
    intro runId
    by_cases ha : isTerminal a.status = true
    · rw [runPollLoop_cons_term runId a rest ha]
      simp [isPrintEv, isRunGet, List.countP_cons]
    · rw [runPollLoop_cons runId a rest (by simpa using ha)]
      simp [isPrintEv, isRunGet, List.countP_cons, ih a.run_id]

lemma runPollLoop_last :
    ∀ (rs : List SimRun) (runId : String) (r : SimRun),
      (runPollLoop runId rs).2 = some r →
      ∃ l, (runPollLoop runId rs).1 = l ++ [Event.print (statusLine r)] := by
  intro rs
  induction rs with
  | nil =>
    intro runId r h
    rw [runPollLoop_nil] at h
    simp at h
  | cons a rest ih =>
    intro runId r h
    by_cases ha : isTerminal a.status = true
    · rw [runPollLoop_cons_term runId a rest ha] at h ⊢
      simp only [Option.some.injEq] at h
      exact ⟨[Event.call (ApiCall.getSimulationRun runId)], by simp [h]⟩
    · rw [runPollLoop_cons runId a rest (by simpa using ha)] at h ⊢
      obtain ⟨l, hl⟩ := ih a.run_id r h
      exact ⟨Event.call (ApiCall.getSimulationRun runId) ::
               Event.print (statusLine a) :: Event.sleep 60 :: l,
             by simp [hl]⟩

/-! ### Script-level lemmas -/

lemma runScript_missingKey (env : Env) (hk : keyMissing env = true) :
    runScript env = ([Event.print errMsg, Event.exitProc 1], Outcome.exited 1) := by
  simp [runScript, hk]

lemma runScript_stuckImport (env : Env) (hk : keyMissing env = false)
    (hi : (importStage env).2 = none) :
    runScript env = (setupEvents ++ (importStage env).1, Outcome.stuck) := by
  simp [runScript, hk, hi]

lemma runScript_stuckMesh (env : Env) (gi : GeometryImport)
    (hk : keyMissing env = false) (hi : (importStage env).2 = some gi)
    (hm : (meshStage env).2 = none) :
    runScript env =
      (setupEvents ++ (importStage env).1
         ++ afterImportEvents env gi.geometry_id ++ (meshStage env).1,
       Outcome.stuck) := by
  simp [runScript, hk, hi, hm]

lemma runScript_stuckRun (env : Env) (gi : GeometryImport) (mo : MeshOp)
    (hk : keyMissing env = false) (hi : (importStage env).2 = some gi)
    (hm : (meshStage env).2 = some mo) (hr : (runStage env).2 = none) :
    runScript env =
      (setupEvents ++ (importStage env).1
         ++ afterImportEvents env gi.geometry_id ++ (meshStage env).1
         ++ afterMeshEvents env mo ++ (runStage env).1,
       Outcome.stuck) := by
  simp [runScript, hk, hi, hm, hr]

lemma runScript_completed (env : Env) (gi : GeometryImport) (mo : MeshOp)
    (r : SimRun) (hk : keyMissing env = false)
    (hi : (importStage env).2 = some gi) (hm : (meshStage env).2 = some mo)
    (hr : (runStage env).2 = some r) :
    runScript env =
      (setupEvents ++ (importStage env).1
         ++ afterImportEvents env gi.geometry_id ++ (meshStage env).1
         ++ afterMeshEvents env mo ++ (runStage env).1 ++ finalEvents env,
       Outcome.completed) := by
  simp [runScript, hk, hi, hm, hr]

lemma data_take_ne (s q : String) (n : ℕ)
    (h : s.data.take n ≠ q.data.take n) : s ≠ q :=
  fun he => h (by rw [he])

lemma statusLine_ne_errMsg (r : SimRun) : statusLine r ≠ errMsg := by
  apply data_take_ne _ _ 8
  have hA : (statusLine r).data.take 8 = ("Status: ").data := by
    simp only [statusLine, String.data_append, List.append_assoc]
    have h8 : ("Status: ").data.length = 8 := by decide
    rw [← h8, List.take_left]
  rw [hA]
  decide

lemma resultsUrl_ne_errMsg (env : Env) : resultsUrl env ≠ errMsg := by
  apply data_take_ne _ _ 8
  have hA : (resultsUrl env).data.take 8 = ("View res").data := by
    simp only [resultsUrl, String.data_append]
    have h8 : ("View results at: https://www.simscale.com/workbench/project/").data.take 8
        = ("View res").data := by decide
    rw [List.take_append_of_le_length (by decide), h8]
  rw [hA]
  decide

/-- `true` on every event the script can emit after a successful key check:
not an exit and not the error-message print. -/
def notExitNotErr : Event → Bool
  | Event.exitProc _ => false
  | Event.print s => ! (s == errMsg)
  | _ => true

lemma notExitNotErr_spec (e : Event) (h : notExitNotErr e = true) :
    (∀ n, e ≠ Event.exitProc n) ∧ e ≠ Event.print errMsg := by
  cases e with
  | exitProc n => simp [notExitNotErr] at h
  | print s =>
    simp only [notExitNotErr, Bool.not_eq_true', beq_eq_false_iff_ne] at h
    refine ⟨fun n hn => ?_, fun hc => ?_⟩
    · cases hn
    · cases hc
      exact h rfl
  | sleep n =>
    refine ⟨fun _ hn => ?_, fun hc => ?_⟩
    · cases hn
    · cases hc
  | mkClient =>
    refine ⟨fun _ hn => ?_, fun hc => ?_⟩
    · cases hn
    · cases hc
  | call c =>
    refine ⟨fun _ hn => ?_, fun hc => ?_⟩
    · cases hn
    · cases hc

lemma benign_trace (env : Env) (hk : keyMissing env = false) :
    ∀ e ∈ (runScript env).1, notExitNotErr e = true := by
  have hsetup : ∀ e ∈ setupEvents, notExitNotErr e = true := by decide
  have himp : ∀ e ∈ (importStage env).1, notExitNotErr e = true := by
    intro e he
    rcases importPollLoop_events env.importResponses env.importCreated e he with
      h | ⟨i, h⟩ <;> subst h <;> rfl
  have hmesh : ∀ e ∈ (meshStage env).1, notExitNotErr e = true := by
    intro e he
    rcases meshPollLoop_events env.meshResponses _ e he with h | ⟨i, h⟩ <;>
      subst h <;> rfl
  have hrun : ∀ e ∈ (runStage env).1, notExitNotErr e = true := by
    intro e he
    rcases runPollLoop_events env.runResponses _ e he with h | ⟨i, h⟩ | ⟨r, _, h⟩
    · subst h; rfl
    · subst h; rfl
    · subst h
      simp only [notExitNotErr, Bool.not_eq_true', beq_eq_false_iff_ne]
      exact statusLine_ne_errMsg r
  have hai : ∀ gid, ∀ e ∈ afterImportEvents env gid, notExitNotErr e = true := by
    intro gid e he
    simp only [afterImportEvents, List.mem_cons, List.not_mem_nil, or_false] at he
    rcases he with h | h | h | h | h | h | h <;> subst h <;> rfl
  have ham : ∀ mo, ∀ e ∈ afterMeshEvents env mo, notExitNotErr e = true := by
    intro mo e he
    simp only [afterMeshEvents, List.mem_cons, List.not_mem_nil, or_false] at he
    rcases he with h | h | h | h | h <;> subst h <;> rfl
  have hfin : ∀ e ∈ finalEvents env, notExitNotErr e = true := by
    intro e he
    simp only [finalEvents, List.mem_cons, List.not_mem_nil, or_false] at he
    rcases he with h | h <;> subst h
    · decide
    · simp only [notExitNotErr, Bool.not_eq_true', beq_eq_false_iff_ne]
      exact resultsUrl_ne_errMsg env
  intro e he
  rcases h1 : (importStage env).2 with _ | gi
  · have ht : (runScript env).1 = setupEvents ++ (importStage env).1 := by
      rw [runScript_stuckImport env hk h1]
    rw [ht] at he
    rcases List.mem_append.mp he with h | h
    · exact hsetup e h
    · exact himp e h
  · rcases h2 : (meshStage env).2 with _ | mo
    · have ht : (runScript env).1 = setupEvents ++ (importStage env).1
          ++ afterImportEvents env gi.geometry_id ++ (meshStage env).1 := by
        rw [runScript_stuckMesh env gi hk h1 h2]
      rw [ht] at he
      simp only [List.mem_append] at he
      rcases he with ((h | h) | h) | h
      · exact hsetup e h
      · exact himp e h
      · exact hai _ e h
      · exact hmesh e h
    · rcases h3 : (runStage env).2 with _ | r
      · have ht : (runScript env).1 = setupEvents ++ (importStage env).1
            ++ afterImportEvents env gi.geometry_id ++ (meshStage env).1
            ++ afterMeshEvents env mo ++ (runStage env).1 := by
          rw [runScript_stuckRun env gi mo hk h1 h2 h3]
        rw [ht] at he
        simp only [List.mem_append] at he
        rcases he with ((((h | h) | h) | h) | h) | h
        · exact hsetup e h
        · exact himp e h
        · exact hai _ e h
        · exact hmesh e h
        · exact ham _ e h
        · exact hrun e h
      · have ht : (runScript env).1 = setupEvents ++ (importStage env).1
            ++ afterImportEvents env gi.geometry_id ++ (meshStage env).1
            ++ afterMeshEvents env mo ++ (runStage env).1 ++ finalEvents env := by
          rw [runScript_completed env gi mo r hk h1 h2 h3]
        rw [ht] at he
        simp only [List.mem_append] at he
        rcases he with (((((h | h) | h) | h) | h) | h) | h
        · exact hsetup e h
        · exact himp e h
        · exact hai _ e h
        · exact hmesh e h
        · exact ham _ e h
        · exact hrun e h
        · exact hfin e h

lemma mem_afterImport (env : Env) (gi : GeometryImport)
    (hk : keyMissing env = false) (hi : (importStage env).2 = some gi) :
    ∀ e ∈ afterImportEvents env gi.geometry_id, e ∈ (runScript env).1 := by
  intro e he
  rcases h2 : (meshStage env).2 with _ | mo
  · have ht : (runScript env).1 = setupEvents ++ (importStage env).1
        ++ afterImportEvents env gi.geometry_id ++ (meshStage env).1 := by
      rw [runScript_stuckMesh env gi hk hi h2]
    rw [ht]
    simp only [List.mem_append]
    tauto
  · rcases h3 : (runStage env).2 with _ | r
    · have ht : (runScript env).1 = setupEvents ++ (importStage env).1
          ++ afterImportEvents env gi.geometry_id ++ (meshStage env).1
          ++ afterMeshEvents env mo ++ (runStage env).1 := by
        rw [runScript_stuckRun env gi mo hk hi h2 h3]
      rw [ht]
      simp only [List.mem_append]
      tauto
    · have ht : (runScript env).1 = setupEvents ++ (importStage env).1
          ++ afterImportEvents env gi.geometry_id ++ (meshStage env).1
          ++ afterMeshEvents env mo ++ (runStage env).1 ++ finalEvents env := by
        rw [runScript_completed env gi mo r hk hi h2 h3]
      rw [ht]
      simp only [List.mem_append]
      tauto

lemma mem_afterMesh (env : Env) (gi : GeometryImport) (mo : MeshOp)
    (hk : keyMissing env = false) (hi : (importStage env).2 = some gi)
    (hm : (meshStage env).2 = some mo) :
    ∀ e ∈ afterMeshEvents env mo, e ∈ (runScript env).1 := by
  intro e he
  rcases h3 : (runStage env).2 with _ | r
  · have ht : (runScript env).1 = setupEvents ++ (importStage env).1
        ++ afterImportEvents env gi.geometry_id ++ (meshStage env).1
        ++ afterMeshEvents env mo ++ (runStage env).1 := by
      rw [runScript_stuckRun env gi mo hk hi hm h3]
    rw [ht]
    simp only [List.mem_append]
    tauto
  · have ht : (runScript env).1 = setupEvents ++ (importStage env).1
        ++ afterImportEvents env gi.geometry_id ++ (meshStage env).1
        ++ afterMeshEvents env mo ++ (runStage env).1 ++ finalEvents env := by
      rw [runScript_completed env gi mo r hk hi hm h3]
    rw [ht]
    simp only [List.mem_append]
    tauto

lemma runScript_not_exited (env : Env) (hk : keyMissing env = false) :
    ∀ n, (runScript env).2 ≠ Outcome.exited n := by
  intro n
  rcases h1 : (importStage env).2 with _ | gi
  · rw [runScript_stuckImport env hk h1]
    simp
  · rcases h2 : (meshStage env).2 with _ | mo
    · rw [runScript_stuckMesh env gi hk h1 h2]
      simp
    · rcases h3 : (runStage env).2 with _ | r
      · rw [runScript_stuckRun env gi mo hk h1 h2 h3]
        simp
      · rw [runScript_completed env gi mo r hk h1 h2 h3]
        simp

lemma keyMissing_true_iff (env : Env) :
    keyMissing env = true ↔ env.apiKey = none ∨ env.apiKey = some ("") := by
  cases h : env.apiKey with
  | none => simp [keyMissing, h]
  | some s => simp [keyMissing, h]

/-! ### Concrete environments used as witnesses -/

/-- A pending import-submission response. -/
def giPend : GeometryImport :=
  { geometry_import_id := ("gi1"), status := ("PENDING"), geometry_id := ("") }

/-- A finished geometry-import response. -/
def giFin : GeometryImport :=
  { geometry_import_id := ("gi1"), status := ("FINISHED"),
    geometry_id := ("geo1") }

/-- A freshly created mesh operation. -/
def moNone : MeshOp :=
  { mesh_operation_id := ("mo1"), status := ("NONE") }

/-- A still-running mesh-operation response. -/
def moPend : MeshOp :=
  { mesh_operation_id := ("mo1"), status := ("RUNNING") }

/-- A finished mesh-operation response carrying a mesh id. -/
def moFin : MeshOp :=
  { mesh_operation_id := ("mo1"), status := ("FINISHED"),
    mesh_id := some ("mesh1") }

/-- A freshly created simulation run. -/
def runNone : SimRun :=
  { run_id := ("run1"), status := ("NONE"), progress := 0 }

/-- A still-running simulation-run response. -/
def runPend : SimRun :=
  { run_id := ("run1"), status := ("RUNNING"), progress := 1 / 4 }

/-- A finished simulation-run response. -/
def runFin : SimRun :=
  { run_id := ("run1"), status := ("FINISHED"), progress := 1 }

/-- A failed simulation-run response. -/
def runFail : SimRun :=
  { run_id := ("run1"), status := ("FAILED"), progress := 1 / 2 }

/-- A happy-path environment: valid key, every poll sequence reaches a
terminal status. -/
def envHappy : Env :=
  { apiKey := some ("abc"), project_id := ("p1"), simulation_id := ("sim1"),
    importCreated := giPend, importResponses := [giFin],
    mappings := [{ name := ("B1") }],
    meshOpCreated := moNone, meshResponses := [moPend, moFin],
    fetchedSim := builtSpec ("geo1") ("B1"),
    runCreated := runNone, runResponses := [runPend, runFin] }

/-- Like `envHappy` but the simulation run ends `FAILED`. -/
def envFail : Env :=
  { envHappy with runResponses := [runPend, runFail] }

/-- Like `envHappy` but the API-key variable is absent. -/
def envNoKey : Env :=
  { envHappy with apiKey := none }

/-! ### Claims -/

/-- C1: if `SIMSCALE_API_KEY` is absent or empty, the script prints the error
message and exits with status 1, with no API call and no client construction
in the trace; if a non-empty key is present, execution proceeds past the
check and the script never exits. -/
theorem C1_missing_key_exits (env : Env) :
    ((env.apiKey = none ∨ env.apiKey = some ("")) →
      runScript env =
          ([Event.print errMsg, Event.exitProc 1], Outcome.exited 1) ∧
        (∀ c, Event.call c ∉ (runScript env).1) ∧
        Event.mkClient ∉ (runScript env).1) ∧
    ((∃ s, env.apiKey = some s ∧ s ≠ ("")) →
      (∀ n, Event.exitProc n ∉ (runScript env).1) ∧
      ∀ n, (runScript env).2 ≠ Outcome.exited n) := by
  constructor
  · intro h
    have hk : keyMissing env = true := (keyMissing_true_iff env).mpr h
    have heq := runScript_missingKey env hk
    refine ⟨heq, ?_, ?_⟩
    · intro c hc
      rw [heq] at hc
      simp at hc
    · intro hc
      rw [heq] at hc
      simp at hc
  · rintro ⟨s, hs, hns⟩
    have hk : keyMissing env = false := by
      simp [keyMissing, hs, hns]
    refine ⟨?_, runScript_not_exited env hk⟩
    intro n hn
    have hb := benign_trace env hk _ hn
    exact ((notExitNotErr_spec _ hb).1 n) rfl

/-- C1 witness: with the key absent, the script's whole behavior is the error
print and exit 1. -/
theorem C1_missing_key_exits_witness :
    (envNoKey.apiKey = none ∨ envNoKey.apiKey = some ("")) ∧
    runScript envNoKey =
      ([Event.print errMsg, Event.exitProc 1], Outcome.exited 1) :=
  ⟨Or.inl rfl, ((C1_missing_key_exits envNoKey).1 (Or.inl rfl)).1⟩

/-- C2: each poll loop returns only terminal statuses; moreover, at the first
terminal status of the observation sequence the loop's behavior is
independent of all later responses (no further requests are issued), it
returns exactly that first terminal response, and the number of status
requests issued equals the number of observations up to and including it. -/
theorem C2_poll_loops_exit_on_terminal :
    (∀ (gi r : GeometryImport) (rs : List GeometryImport),
        (importPollLoop gi rs).2 = some r → isTerminal r.status = true) ∧
    (∀ (moId : String) (r : MeshOp) (rs : List MeshOp),
        (meshPollLoop moId rs).2 = some r → isTerminal r.status = true) ∧
    (∀ (runId : String) (r : SimRun) (rs : List SimRun),
        (runPollLoop runId rs).2 = some r → isTerminal r.status = true) ∧
    (∀ (gi r : GeometryImport) (as bs : List GeometryImport),
        isTerminal gi.status = false →
        (∀ a ∈ as, isTerminal a.status = false) →
        isTerminal r.status = true →
        importPollLoop gi (as ++ r :: bs) = importPollLoop gi (as ++ [r]) ∧
        (importPollLoop gi (as ++ r :: bs)).2 = some r ∧
        ((importPollLoop gi (as ++ r :: bs)).1.countP isImportGet)
          = as.length + 1) ∧
    (∀ (moId : String) (r : MeshOp) (as bs : List MeshOp),
        (∀ a ∈ as, isTerminal a.status = false) →
        isTerminal r.status = true →
        meshPollLoop moId (as ++ r :: bs) = meshPollLoop moId (as ++ [r]) ∧
        (meshPollLoop moId (as ++ r :: bs)).2 = some r ∧
        ((meshPollLoop moId (as ++ r :: bs)).1.countP isMeshGet)
          = as.length + 1) ∧
    (∀ (runId : String) (r : SimRun) (as bs : List SimRun),
        (∀ a ∈ as, isTerminal a.status = false) →
        isTerminal r.status = true →
        runPollLoop runId (as ++ r :: bs) = runPollLoop runId (as ++ [r]) ∧
        (runPollLoop runId (as ++ r :: bs)).2 = some r ∧
        ((runPollLoop runId (as ++ r :: bs)).1.countP isRunGet)
          = as.length + 1) :=
  ⟨fun gi r rs => importPollLoop_sound rs gi r,
   fun moId r rs => meshPollLoop_sound rs moId r,
   fun runId r rs => runPollLoop_sound rs runId r,
   fun gi r as bs h1 h2 h3 => importPollLoop_firstTerminal as gi r bs h1 h2 h3,
   fun moId r as bs h1 h2 => meshPollLoop_firstTerminal as moId r bs h1 h2,
   fun runId r as bs h1 h2 => runPollLoop_firstTerminal as runId r bs h1 h2⟩

/-- C2 witness: the mesh loop run against one pending response, then a
FINISHED one, then a further (never-requested) response, returns the FINISHED
response. -/
theorem C2_poll_loops_exit_on_terminal_witness :
    (∀ a ∈ [moPend], isTerminal a.status = false) ∧
    isTerminal moFin.status = true ∧
    (meshPollLoop ("mo1") ([moPend] ++ moFin :: [moPend])).2 = some moFin :=
  ⟨by decide, by decide,
   (C2_poll_loops_exit_on_terminal.2.2.2.2.1 ("mo1") moFin [moPend] [moPend]
      (by decide) (by decide)).2.1⟩

/-- C3: the simulation-creation request carries the geometry id of the
finished import and a material whose topological reference is exactly the
body name, which is the first mapped body's name, or the literal string
"region1" when the mappings list is empty. -/
theorem C3_body_name_defaults (env : Env) (gi : GeometryImport)
    (hk : keyMissing env = false) (hi : (importStage env).2 = some gi) :
    Event.call (ApiCall.createSimulation
        (builtSpec gi.geometry_id (bodyName env))) ∈ (runScript env).1 ∧
    (builtSpec gi.geometry_id (bodyName env)).model.materials.map
        (fun m => m.topological_reference.entities) = [[bodyName env]] ∧
    (env.mappings = [] → bodyName env = ("region1")) ∧
    (∀ b rest, env.mappings = b :: rest → bodyName env = b.name) := by
  refine ⟨?_, rfl, ?_, ?_⟩
  · exact mem_afterImport env gi hk hi _ (by simp [afterImportEvents])
  · intro h
    simp [bodyName, h]
  · intro b rest h
    simp [bodyName, h]

/-- C3 witness: in the happy-path environment with one mapped body named B1,
the body name used is B1. -/
theorem C3_body_name_defaults_witness :
    keyMissing envHappy = false ∧ (importStage envHappy).2 = some giFin ∧
    bodyName envHappy = ("B1") :=
  ⟨by decide, by decide,
   (C3_body_name_defaults envHappy giFin (by decide) (by decide)).2.2.2
     { name := ("B1") } [] (by decide)⟩

/-- C4: whenever the mesh loop has returned a finished mesh operation, the
update carrying the simulation payload with that operation's mesh id occurs
in the trace strictly before the run-creation and run-start calls. -/
theorem C4_mesh_attached_before_run (env : Env) (gi : GeometryImport)
    (mo : MeshOp) (hk : keyMissing env = false)
    (hi : (importStage env).2 = some gi) (hm : (meshStage env).2 = some mo) :
    ∃ l1 l2, (runScript env).1 =
        l1 ++ Event.call (ApiCall.updateSimulation env.simulation_id
                (updatePayload env mo)) :: l2 ∧
      Event.call (ApiCall.createSimulationRun env.simulation_id) ∈ l2 ∧
      Event.call (ApiCall.startSimulationRun env.runCreated.run_id) ∈ l2 ∧
      (updatePayload env mo).mesh_id = mo.mesh_id := by
  rcases h3 : (runStage env).2 with _ | r
  · have heq := runScript_stuckRun env gi mo hk hi hm h3
    refine ⟨setupEvents ++ (importStage env).1
        ++ afterImportEvents env gi.geometry_id ++ (meshStage env).1
        ++ [Event.call (ApiCall.getSimulation env.simulation_id)],
      Event.print ("Running simulation...") ::
        Event.call (ApiCall.createSimulationRun env.simulation_id) ::
        Event.call (ApiCall.startSimulationRun env.runCreated.run_id) ::
        (runStage env).1,
      ?_, by simp, by simp, rfl⟩
    rw [heq]
    simp [afterMeshEvents]
  · have heq := runScript_completed env gi mo r hk hi hm h3
    refine ⟨setupEvents ++ (importStage env).1
        ++ afterImportEvents env gi.geometry_id ++ (meshStage env).1
        ++ [Event.call (ApiCall.getSimulation env.simulation_id)],
      Event.print ("Running simulation...") ::
        Event.call (ApiCall.createSimulationRun env.simulation_id) ::
        Event.call (ApiCall.startSimulationRun env.runCreated.run_id) ::
        ((runStage env).1 ++ finalEvents env),
      ?_, by simp, by simp, rfl⟩
    rw [heq]
    simp [afterMeshEvents]

/-- C4 witness: the ordering holds in the happy-path environment. -/
theorem C4_mesh_attached_before_run_witness :
    keyMissing envHappy = false ∧
    (meshStage envHappy).2 = some moFin ∧
    ∃ l1 l2, (runScript envHappy).1 =
        l1 ++ Event.call (ApiCall.updateSimulation envHappy.simulation_id
                (updatePayload envHappy moFin)) :: l2 ∧
      Event.call (ApiCall.createSimulationRun envHappy.simulation_id) ∈ l2 ∧
      Event.call (ApiCall.startSimulationRun envHappy.runCreated.run_id) ∈ l2 ∧
      (updatePayload envHappy moFin).mesh_id = moFin.mesh_id :=
  ⟨by decide, by decide,
   C4_mesh_attached_before_run envHappy giFin moFin (by decide) (by decide)
     (by decide)⟩

/-- C5: a FAILED terminal run status is handled exactly like FINISHED: the
loop exits, the script produces no exit event and no error print, and it
still reaches the completed outcome, ending with the completion message and
the results URL. -/
theorem C5_failed_terminal_continues (env : Env) (gi : GeometryImport)
    (mo : MeshOp) (r : SimRun) (hk : keyMissing env = false)
    (hi : (importStage env).2 = some gi) (hm : (meshStage env).2 = some mo)
    (hr : (runStage env).2 = some r) (_hf : r.status = ("FAILED")) :
    (runScript env).2 = Outcome.completed ∧
    (∃ l, (runScript env).1 =
        l ++ [Event.print doneMsg, Event.print (resultsUrl env)]) ∧
    (∀ n, Event.exitProc n ∉ (runScript env).1) ∧
    Event.print errMsg ∉ (runScript env).1 := by
  have heq := runScript_completed env gi mo r hk hi hm hr
  refine ⟨by rw [heq], ?_, ?_, ?_⟩
  · refine ⟨setupEvents ++ (importStage env).1
      ++ afterImportEvents env gi.geometry_id ++ (meshStage env).1
      ++ afterMeshEvents env mo ++ (runStage env).1, ?_⟩
    rw [heq]
    simp [finalEvents]
  · intro n hn
    have hb := benign_trace env hk _ hn
    exact ((notExitNotErr_spec _ hb).1 n) rfl
  · intro hn
    have hb := benign_trace env hk _ hn
    exact (notExitNotErr_spec _ hb).2 rfl

/-- C5 witness: with a FAILED run response, the script still completes. -/
theorem C5_failed_terminal_continues_witness :
    (runStage envFail).2 = some runFail ∧ runFail.status = ("FAILED") ∧
    (runScript envFail).2 = Outcome.completed :=
  ⟨rfl, by decide,
   (C5_failed_terminal_continues envFail giFin moFin runFail (by decide)
      (by decide) (by decide) rfl (by decide)).1⟩

/-- C6: every line printed by the run poll loop is exactly
`Status: <STATUS> - Progress: <percentage>%`, where the percentage is the
observed run's 0–1 progress fraction times 100, rounded to an integer. -/
theorem C6_run_status_line_format (runId : String) (rs : List SimRun) :
    ∀ s, Event.print s ∈ (runPollLoop runId rs).1 →
      ∃ r ∈ rs, s = ("Status: ") ++ r.status ++ (" - Progress: ")
          ++ toString (roundHalfEven (100 * r.progress)) ++ ("%") := by
  intro s hs
  rcases runPollLoop_events rs runId _ hs with h | ⟨i, h⟩ | ⟨r, hr, h⟩
  · simp at h
  · simp at h
  · refine ⟨r, hr, ?_⟩
    injection h with h2
    rw [h2]
    apply String.ext
    simp [statusLine, pctFormat, String.data_append, List.append_assoc]

/-- C6 witness: the line printed for a FINISHED run has the stated format. -/
theorem C6_run_status_line_format_witness :
    Event.print (statusLine runFin) ∈ (runPollLoop ("run1") [runFin]).1 ∧
    ∃ r ∈ [runFin], statusLine runFin = ("Status: ") ++ r.status
        ++ (" - Progress: ") ++ toString (roundHalfEven (100 * r.progress))
        ++ ("%") := by
  have hmem : Event.print (statusLine runFin) ∈
      (runPollLoop ("run1") [runFin]).1 := by
    rw [runPollLoop_cons_term ("run1") runFin [] (by decide)]
    simp
  exact ⟨hmem,
    C6_run_status_line_format ("run1") [runFin] (statusLine runFin) hmem⟩

/-- C7: every sleep in the import loop is 5 seconds, in the mesh loop 30
seconds, and in the run loop 60 seconds; and no loop gives up before a
terminal status: a loop run that returns no result has consumed only
non-terminal statuses. -/
theorem C7_fixed_sleep_intervals :
    (∀ (gi : GeometryImport) (rs : List GeometryImport) (n : ℕ),
        Event.sleep n ∈ (importPollLoop gi rs).1 → n = 5) ∧
    (∀ (moId : String) (rs : List MeshOp) (n : ℕ),
        Event.sleep n ∈ (meshPollLoop moId rs).1 → n = 30) ∧
    (∀ (runId : String) (rs : List SimRun) (n : ℕ),
        Event.sleep n ∈ (runPollLoop runId rs).1 → n = 60) ∧
    (∀ (gi : GeometryImport) (rs : List GeometryImport),
        (importPollLoop gi rs).2 = none →
        isTerminal gi.status = false ∧
          ∀ a ∈ rs, isTerminal a.status = false) ∧
    (∀ (moId : String) (rs : List MeshOp),
        (meshPollLoop moId rs).2 = none →
        ∀ a ∈ rs, isTerminal a.status = false) ∧
    (∀ (runId : String) (rs : List SimRun),
        (runPollLoop runId rs).2 = none →
        ∀ a ∈ rs, isTerminal a.status = false) := by
  refine ⟨?_, ?_, ?_, fun gi rs h => importPollLoop_none rs gi h,
    fun moId rs h => meshPollLoop_none rs moId h,
    fun runId rs h => runPollLoop_none rs runId h⟩
  · intro gi rs n hn
    rcases importPollLoop_events rs gi _ hn with h | ⟨i, h⟩
    · simpa using h
    · simp at h
  · intro moId rs n hn
    rcases meshPollLoop_events rs moId _ hn with h | ⟨i, h⟩
    · simpa using h
    · simp at h
  · intro runId rs n hn
    rcases runPollLoop_events rs runId _ hn with h | ⟨i, h⟩ | ⟨r, _, h⟩
    · simpa using h
    · simp at h
    · simp at h

/-- C7 witness: a loop that exhausts only non-terminal responses returns
nothing, and all consumed statuses were non-terminal. -/
theorem C7_fixed_sleep_intervals_witness :
    (importPollLoop giPend [giPend]).2 = none ∧
    (isTerminal giPend.status = false ∧
      ∀ a ∈ [giPend], isTerminal a.status = false) :=
  ⟨by decide, C7_fixed_sleep_intervals.2.2.2.1 giPend [giPend] (by decide)⟩

/-- C8: the simulation payload sent in the update request is the fetched
simulation with only its `mesh_id` field changed, to the finished mesh
operation's `mesh_id`; name, geometry id and the whole model are unchanged. -/
theorem C8_update_changes_only_mesh_id (env : Env) (gi : GeometryImport)
    (mo : MeshOp) (hk : keyMissing env = false)
    (hi : (importStage env).2 = some gi) (hm : (meshStage env).2 = some mo) :
    Event.call (ApiCall.updateSimulation env.simulation_id
        (updatePayload env mo)) ∈ (runScript env).1 ∧
    (updatePayload env mo).mesh_id = mo.mesh_id ∧
    (updatePayload env mo).name = env.fetchedSim.name ∧
    (updatePayload env mo).geometry_id = env.fetchedSim.geometry_id ∧
    (updatePayload env mo).model = env.fetchedSim.model := by
  refine ⟨?_, rfl, rfl, rfl, rfl⟩
  exact mem_afterMesh env gi mo hk hi hm _ (by simp [afterMeshEvents])

/-- C8 witness: in the happy-path environment the update payload carries the
finished mesh operation's id. -/
theorem C8_update_changes_only_mesh_id_witness :
    keyMissing envHappy = false ∧ (meshStage envHappy).2 = some moFin ∧
    (updatePayload envHappy moFin).mesh_id = moFin.mesh_id :=
  ⟨by decide, by decide,
   (C8_update_changes_only_mesh_id envHappy giFin moFin (by decide) (by decide)
      (by decide)).2.1⟩

/-- C9: the import loop issues no status request when the submission response
is already terminal (it returns immediately with no events), whereas the mesh
and run loops always fetch before testing: on a first response that is already
terminal they still issue exactly one status request, and on any non-empty
response sequence they issue at least one. -/
theorem C9_prefetch_asymmetry :
    (∀ (gi : GeometryImport) (rs : List GeometryImport),
        isTerminal gi.status = true → importPollLoop gi rs = ([], some gi)) ∧
    (∀ (moId : String) (r : MeshOp) (rest : List MeshOp),
        isTerminal r.status = true →
        meshPollLoop moId (r :: rest) =
          ([Event.call (ApiCall.getMeshOperation moId)], some r)) ∧
    (∀ (runId : String) (r : SimRun) (rest : List SimRun),
        isTerminal r.status = true →
        runPollLoop runId (r :: rest) =
          ([Event.call (ApiCall.getSimulationRun runId),
            Event.print (statusLine r)], some r)) ∧
    (∀ (moId : String) (a : MeshOp) (rest : List MeshOp),
        1 ≤ ((meshPollLoop moId (a :: rest)).1.countP isMeshGet)) ∧
    (∀ (runId : String) (a : SimRun) (rest : List SimRun),
        1 ≤ ((runPollLoop runId (a :: rest)).1.countP isRunGet)) := by
  refine ⟨importPollLoop_terminal, meshPollLoop_cons_term,
    runPollLoop_cons_term, ?_, ?_⟩
  · intro moId a rest
    by_cases ha : isTerminal a.status = true
    · rw [meshPollLoop_cons_term moId a rest ha]
      simp [isMeshGet, List.countP_cons]
    · rw [meshPollLoop_cons moId a rest (by simpa using ha)]
      simp [isMeshGet, List.countP_cons]
  · intro runId a rest
    by_cases ha : isTerminal a.status = true
    · rw [runPollLoop_cons_term runId a rest ha]
      simp [isRunGet, isPrintEv, List.countP_cons]
    · rw [runPollLoop_cons runId a rest (by simpa using ha)]
      simp [isRunGet, isPrintEv, List.countP_cons]

/-- C9 witness: a terminal submission response makes the import loop return
immediately, with an empty event list. -/
theorem C9_prefetch_asymmetry_witness :
    isTerminal giFin.status = true ∧
    importPollLoop giFin [giPend] = ([], some giFin) :=
  ⟨by decide, C9_prefetch_asymmetry.1 giFin [giPend] (by decide)⟩

/-- C10: the run loop prints exactly one status line per status request
(including for the terminal iteration), and the terminal status line appears
immediately before the completion message and the results URL. -/
theorem C10_terminal_status_line_printed (env : Env) (gi : GeometryImport)
    (mo : MeshOp) (r : SimRun) (hk : keyMissing env = false)
    (hi : (importStage env).2 = some gi) (hm : (meshStage env).2 = some mo)
    (hr : (runStage env).2 = some r) :
    ((runStage env).1.countP isPrintEv) = ((runStage env).1.countP isRunGet) ∧
    isTerminal r.status = true ∧
    ∃ l, (runScript env).1 =
        l ++ [Event.print (statusLine r), Event.print doneMsg,
              Event.print (resultsUrl env)] := by
  refine ⟨runPollLoop_counts env.runResponses env.runCreated.run_id,
    runPollLoop_sound env.runResponses env.runCreated.run_id r hr, ?_⟩
  obtain ⟨l, hl⟩ := runPollLoop_last env.runResponses env.runCreated.run_id r hr
  have heq := runScript_completed env gi mo r hk hi hm hr
  refine ⟨setupEvents ++ (importStage env).1
      ++ afterImportEvents env gi.geometry_id ++ (meshStage env).1
      ++ afterMeshEvents env mo ++ l, ?_⟩
  rw [heq]
  show setupEvents ++ (importStage env).1
      ++ afterImportEvents env gi.geometry_id ++ (meshStage env).1
      ++ afterMeshEvents env mo ++ (runStage env).1 ++ finalEvents env = _
  rw [show (runStage env).1 = l ++ [Event.print (statusLine r)] from hl]
  simp [finalEvents]

/-- C10 witness: the terminal FINISHED run status is itself printed. -/
theorem C10_terminal_status_line_printed_witness :
    (runStage envHappy).2 = some runFin ∧ isTerminal runFin.status = true :=
  ⟨rfl, (C10_terminal_status_line_printed envHappy giFin moFin runFin
      (by decide) (by decide) (by decide) rfl).2.1⟩
